import Mathlib

/-!
# Verification of the OpenSMTPD ruleset matcher (`src/smtpd/ruleset.c`)

This file gives a shallow embedding of the rule-matching engine of
`ruleset.c` and proves properties about it.

The engine consists of two structurally parallel matchers:

* `ruleset_match`, operating on the attribute-bundle rule representation
  (`struct rule`), with helpers `ruleset_check_source` and
  `ruleset_check_mailaddr`;
* `ruleset_match_new`, operating on the generic ordered-criterion
  representation (`struct match`), with one criterion function per
  dimension (`ruleset_match_tag`, `ruleset_match_from`, ...) and the
  `MATCH_EVAL` reduction macro.

External collaborators (the table backends, address rendering) are
modelled from their interface contract; everything else is translated
directly from the C source.

Conventions of the embedding:

* C `int` criterion results are `Int`: `1` = match, `0` = no-match,
  `-1` = indeterminate (backend error / unrenderable key), exactly the
  values the C functions produce.
* The C matchers signal their three outcomes as: non-NULL pointer
  (matched), NULL with `errno = 0` (no rule matched), NULL with
  `errno = EAGAIN` (temporary failure).  These are the three
  constructors of `MatchResult`.
* The global lists `env->sc_rules` / `env->sc_matches` are passed as an
  explicit `List` parameter.
* `table_find` resolves a configured table name in the table registry;
  the registry is external, so the embedded rule structures hold the
  resolved `Table` value directly.
-/

/-- The typed key services of `table_lookup` used by `ruleset.c`
(`K_NETADDR`, `K_DOMAIN`, `K_MAILADDR`, `K_STRING`, `K_CREDENTIALS`). -/
inductive TableService where
  | K_NETADDR
  | K_DOMAIN
  | K_MAILADDR
  | K_STRING
  | K_CREDENTIALS
deriving DecidableEq, Repr

/-- Result of one backend lookup, per the lookup-table collaborator
contract: found / not-found / backend-error. -/
inductive LookupRes where
  | found
  | notfound
  | error
deriving DecidableEq, Repr

/-- A lookup table: a name plus its backend behaviour per service and
key.  The backend itself is an external collaborator. -/
structure Table where
  t_name : String
  t_lookup : TableService → String → LookupRes

/-- Modelled from the spec: `table_lookup` queries the named backend
with a typed key and reports found (`1`), not-found (`0`) or
backend-error (`-1`), the three outcomes of the collaborator
interface. -/
def table_lookup (table : Table) (key : String) (service : TableService) : Int :=
  match table.t_lookup service key with
  | .found => 1
  | .notfound => 0
  | .error => -1

/-- A mail address: local part and domain part (`struct mailaddr`). -/
structure Mailaddr where
  user : String
  domain : String
deriving DecidableEq, Repr

/-- Modelled from the spec: rendering a mail address to its canonical
textual key form may fail for a malformed address.  We model a
malformed address as one whose local or domain part itself contains
the separator character, so that it has no unambiguous textual form. -/
def mailaddr_to_text (maddr : Mailaddr) : Option String :=
  if maddr.user.toList.contains '@' || maddr.domain.toList.contains '@' then none
  else some (maddr.user ++ "@" ++ maddr.domain)

/-- Modelled from the spec: the originating network address is carried
in textual form, so rendering it is the identity (the C `ss_to_text`
always yields a textual form of the `sockaddr_storage`). -/
def ss_to_text (ss : String) : String := ss

/-- The session flags of an envelope that `ruleset.c` consults:
`EF_AUTHENTICATED` and `EF_INTERNAL` bits of `evp->flags`. -/
structure EnvelopeFlags where
  authenticated : Bool
  internal : Bool
deriving DecidableEq, Repr

/-- The fields of `struct envelope` read by the matchers. -/
structure Envelope where
  dest : Mailaddr
  sender : Mailaddr
  ss : String
  tag : String
  helo : String
  flags : EnvelopeFlags

/-- Attribute-bundle rule representation (`struct rule`), restricted to
the fields `ruleset_match` reads.  `r_sources` is always consulted;
tag is absent when the string is empty; senders / recipients /
destination are absent when no table is configured (NULL pointer). -/
structure Rule where
  r_tag : String
  r_nottag : Bool
  r_wantauth : Bool
  r_negwantauth : Bool
  r_sources : Table
  r_notsources : Bool
  r_senders : Option Table
  r_notsenders : Bool
  r_recipients : Option Table
  r_notrecipients : Bool
  r_destination : Option Table
  r_notdestination : Bool

/-- Key derivation of `ruleset_check_source`: the literal `"local"`
when the session is authenticated or internal, else the textual form
of the originating address. -/
def ruleset_check_source_key (evpflags : EnvelopeFlags) (ss : String) : String :=
  if evpflags.authenticated || evpflags.internal then "local" else ss_to_text ss

/-- `ruleset_check_source`: look the derived key up in the sources
table with service `K_NETADDR`; `1` on found, `-1` on backend error,
`0` otherwise. -/
def ruleset_check_source (table : Table) (ss : String) (evpflags : EnvelopeFlags) : Int :=
  let key := ruleset_check_source_key evpflags ss
  let ret := table_lookup table key .K_NETADDR
  if ret = 1 then 1 else if ret = -1 then -1 else 0

/-- `ruleset_check_mailaddr`: render the address (`-1` when rendering
fails) and look it up with service `K_MAILADDR`. -/
def ruleset_check_mailaddr (table : Table) (maddr : Mailaddr) : Int :=
  match mailaddr_to_text maddr with
  | none => -1
  | some key =>
    let ret := table_lookup table key .K_MAILADDR
    if ret = 1 then 1 else if ret = -1 then -1 else 0

/-- Per-rule step of a matcher loop body: the rule matched (`goto
matched`), the loop continues with the next rule (`continue`), or the
whole call aborts with a temporary failure (`errno = EAGAIN; return
NULL`). -/
inductive RuleStep where
  | matched
  | next
  | tempfail
deriving DecidableEq, Repr

/-- Loop body of `ruleset_match` for one rule, translated block by
block from the C source.  Each block of the C loop body either exits
the current iteration (`some step`) or falls through to the next
block (`none`); the final destination block decides the rule. -/
def rule_block_tag (r : Rule) (evp : Envelope) : Option RuleStep :=
  -- tag block: strcmp, skipped when r_tag is the empty string
  if r.r_tag ≠ "" && !(r.r_tag = evp.tag) && !r.r_nottag then some .next
  else if r.r_tag ≠ "" && r.r_tag = evp.tag && r.r_nottag then some .next
  else none

/-- Authentication block of the `ruleset_match` loop body: a pure
session-flag check. -/
def rule_block_auth (r : Rule) (evp : Envelope) : Option RuleStep :=
  if r.r_wantauth && !r.r_negwantauth && !evp.flags.authenticated then some .next
  else if r.r_wantauth && r.r_negwantauth && evp.flags.authenticated then some .next
  else none

/-- Source block of the `ruleset_match` loop body: unconditional
(`r_sources` is always consulted). -/
def rule_block_sources (r : Rule) (evp : Envelope) : Option RuleStep :=
  let ret := ruleset_check_source r.r_sources evp.ss evp.flags
  if ret = -1 then some .tempfail
  else if (ret = 0 && !r.r_notsources) || (ret ≠ 0 && r.r_notsources) then some .next
  else none

/-- Senders block of the `ruleset_match` loop body, executed when a
senders table is configured. -/
def rule_block_senders (r : Rule) (evp : Envelope) : Option RuleStep :=
  match r.r_senders with
  | none => none
  | some t =>
    let ret := ruleset_check_mailaddr t evp.sender
    if ret = -1 then some .tempfail
    else if (ret = 0 && !r.r_notsenders) || (ret ≠ 0 && r.r_notsenders) then some .next
    else none

/-- Recipients block of the `ruleset_match` loop body (it looks the
destination address up), executed when a recipients table is
configured. -/
def rule_block_recipients (r : Rule) (evp : Envelope) : Option RuleStep :=
  match r.r_recipients with
  | none => none
  | some t =>
    let ret := ruleset_check_mailaddr t evp.dest
    if ret = -1 then some .tempfail
    else if (ret = 0 && !r.r_notrecipients) || (ret ≠ 0 && r.r_notrecipients) then some .next
    else none

/-- Destination block of the `ruleset_match` loop body: an absent
destination table counts as found (`ret = 1`); reaching the end of
the body is `goto matched`. -/
def rule_block_destination (r : Rule) (evp : Envelope) : RuleStep :=
  let ret :=
    match r.r_destination with
    | none => 1
    | some t => table_lookup t evp.dest.domain .K_DOMAIN
  if ret = -1 then .tempfail
  else if (ret = 0 && !r.r_notdestination) || (ret ≠ 0 && r.r_notdestination) then .next
  else .matched

/-- The whole loop body of `ruleset_match` for one rule: the blocks in
source order. -/
def ruleset_match_one (r : Rule) (evp : Envelope) : RuleStep :=
  match rule_block_tag r evp with
  | some s => s
  | none =>
    match rule_block_auth r evp with
    | some s => s
    | none =>
      match rule_block_sources r evp with
      | some s => s
      | none =>
        match rule_block_senders r evp with
        | some s => s
        | none =>
          match rule_block_recipients r evp with
          | some s => s
          | none => rule_block_destination r evp

/-- Outcome of a whole matching call: a selected rule, NULL with
`errno = 0` (no rule matched), or NULL with `errno = EAGAIN`
(indeterminate / temporary failure). -/
inductive MatchResult (α : Type) where
  | matched (r : α)
  | noRuleMatched
  | indeterminate
deriving DecidableEq, Repr

/-- `ruleset_match`: first-match-wins loop over the attribute-bundle
rule list (`TAILQ_FOREACH` over `env->sc_rules`). -/
def ruleset_match : List Rule → Envelope → MatchResult Rule
  | [], _ => .noRuleMatched
  | r :: rs, evp =>
    match ruleset_match_one r evp with
    | .matched => .matched r
    | .next => ruleset_match rs evp
    | .tempfail => .indeterminate

/-- Generic ordered-criterion rule representation (`struct match`).
Each criterion has a presence/sign field encoded as in the C source:
`0` absent, positive present-normal, negative present-inverted.  The
table registry being external, resolved `Table` values are stored
directly (see module comment on `table_find`). -/
structure Match where
  tag : Int
  tag_table : Table
  «from» : Int
  from_table : Table
  from_socket : Bool
  «to» : Int
  to_table : Table
  smtp_helo : Int
  smtp_helo_table : Table
  smtp_auth : Int
  smtp_auth_table : Option Table
  smtp_starttls : Int
  smtp_mail_from : Int
  smtp_mail_from_table : Table
  smtp_rcpt_to : Int
  smtp_rcpt_to_table : Table

/-- C boolean negation `!ret` applied to an `int` criterion result. -/
def c_not (ret : Int) : Int := if ret = 0 then 1 else 0

/-- `ruleset_match_table_lookup`: the shared lookup wrapper of the
generic criterion functions; normalises the backend result to `1`,
`0` or `-1`. -/
def ruleset_match_table_lookup (table : Table) (key : String)
    (service : TableService) : Int :=
  let ret := table_lookup table key service
  if ret = 1 then 1 else if ret = -1 then -1 else 0

/-- `ruleset_match_tag`: opaque-string lookup of the envelope tag. -/
def ruleset_match_tag (m : Match) (evp : Envelope) : Int :=
  if m.tag = 0 then 1
  else
    let ret := ruleset_match_table_lookup m.tag_table evp.tag .K_STRING
    if ret < 0 then ret
    else if m.tag < 0 then c_not ret else ret

/-- Key derivation of `ruleset_match_from`: the literal `"local"` when
the session is internal, else the textual originating address. -/
def ruleset_match_from_key (evp : Envelope) : String :=
  if evp.flags.internal then "local" else ss_to_text evp.ss

/-- `ruleset_match_from`: origin criterion; `from_socket` is not yet
supported (`-1`). -/
def ruleset_match_from (m : Match) (evp : Envelope) : Int :=
  if m.«from» = 0 then 1
  else if m.from_socket then -1
  else
    let key := ruleset_match_from_key evp
    let ret := ruleset_match_table_lookup m.from_table key .K_NETADDR
    if ret < 0 then -1
    else if m.«from» < 0 then c_not ret else ret

/-- `ruleset_match_to`: destination-domain criterion. -/
def ruleset_match_to (m : Match) (evp : Envelope) : Int :=
  if m.«to» = 0 then 1
  else
    let ret := ruleset_match_table_lookup m.to_table evp.dest.domain .K_DOMAIN
    if ret < 0 then -1
    else if m.«to» < 0 then c_not ret else ret

/-- `ruleset_match_smtp_helo`: HELO-identity criterion. -/
def ruleset_match_smtp_helo (m : Match) (evp : Envelope) : Int :=
  if m.smtp_helo = 0 then 1
  else
    let ret := ruleset_match_table_lookup m.smtp_helo_table evp.helo .K_DOMAIN
    if ret < 0 then -1
    else if m.smtp_helo < 0 then c_not ret else ret

/-- `ruleset_match_smtp_starttls`: transport-security criterion; no
TLS flag on the envelope yet, so a present criterion is `-1`. -/
def ruleset_match_smtp_starttls (m : Match) (_evp : Envelope) : Int :=
  if m.smtp_starttls = 0 then 1 else -1

/-- `ruleset_match_smtp_auth`: authentication criterion; the raw
result is the session flag, except that a configured credential table
cannot be checked yet (`-1`) for an authenticated session. -/
def ruleset_match_smtp_auth (m : Match) (evp : Envelope) : Int :=
  if m.smtp_auth = 0 then 1
  else if !evp.flags.authenticated then
    let ret : Int := 0
    if m.smtp_auth < 0 then c_not ret else ret
  else if m.smtp_auth_table.isSome then -1
  else
    let ret : Int := 1
    if m.smtp_auth < 0 then c_not ret else ret

/-- `ruleset_match_smtp_mail_from`: sender-address criterion; `-1`
when the sender cannot be rendered to text. -/
def ruleset_match_smtp_mail_from (m : Match) (evp : Envelope) : Int :=
  if m.smtp_mail_from = 0 then 1
  else
    match mailaddr_to_text evp.sender with
    | none => -1
    | some key =>
      let ret := ruleset_match_table_lookup m.smtp_mail_from_table key .K_MAILADDR
      if ret < 0 then -1
      else if m.smtp_mail_from < 0 then c_not ret else ret

/-- `ruleset_match_smtp_rcpt_to`: recipient-address criterion; `-1`
when the destination cannot be rendered to text. -/
def ruleset_match_smtp_rcpt_to (m : Match) (evp : Envelope) : Int :=
  if m.smtp_rcpt_to = 0 then 1
  else
    match mailaddr_to_text evp.dest with
    | none => -1
    | some key =>
      let ret := ruleset_match_table_lookup m.smtp_rcpt_to_table key .K_MAILADDR
      if ret < 0 then -1
      else if m.smtp_rcpt_to < 0 then c_not ret else ret

/-- The criterion results of one generic rule, in the evaluation order
of the `MATCH_EVAL` sequence in `ruleset_match_new`: tag, origin,
destination, identity, authentication, transport-security, sender,
recipient. -/
def match_crits (m : Match) (evp : Envelope) : List Int :=
  [ruleset_match_tag m evp,
   ruleset_match_from m evp,
   ruleset_match_to m evp,
   ruleset_match_smtp_helo m evp,
   ruleset_match_smtp_auth m evp,
   ruleset_match_smtp_starttls m evp,
   ruleset_match_smtp_mail_from m evp,
   ruleset_match_smtp_rcpt_to m evp]

/-- The `MATCH_EVAL` reduction over a sequence of criterion results:
`-1` aborts to tempfail, `0` skips to the next rule, anything else
falls through to the next criterion; a fully traversed rule
matched. -/
def match_eval_list : List Int → RuleStep
  | [] => .matched
  | x :: xs => if x = -1 then .tempfail else if x = 0 then .next else match_eval_list xs

/-- Loop body of `ruleset_match_new` for one generic rule: the
`MATCH_EVAL` chain over the criteria in source order. -/
def match_eval (m : Match) (evp : Envelope) : RuleStep :=
  match_eval_list (match_crits m evp)

/-- `ruleset_match_new`: first-match-wins loop over the generic rule
list (`TAILQ_FOREACH` over `env->sc_matches`). -/
def ruleset_match_new : List Match → Envelope → MatchResult Match
  | [], _ => .noRuleMatched
  | m :: ms, evp =>
    match match_eval m evp with
    | .matched => .matched m
    | .next => ruleset_match_new ms evp
    | .tempfail => .indeterminate

/-! ## Derived views of the attribute-bundle rule

The signed tri-state outcome of each criterion of an attribute-bundle
rule, read off the corresponding block of the `ruleset_match` loop
body (`1` = match, `0` = no-match, `-1` = indeterminate).  These are
used to state hypotheses and to relate the two matchers. -/

/-- Signed outcome of the attribute rule's authentication criterion
(absent criterion is `1`; never `-1`: a pure flag check). -/
def rule_crit_auth (r : Rule) (evp : Envelope) : Int :=
  if r.r_wantauth then
    if r.r_negwantauth then (if evp.flags.authenticated then 0 else 1)
    else (if evp.flags.authenticated then 1 else 0)
  else 1

/-- Signed outcome of the attribute rule's origin criterion. -/
def rule_crit_source (r : Rule) (evp : Envelope) : Int :=
  let ret := ruleset_check_source r.r_sources evp.ss evp.flags
  if ret = -1 then -1 else if r.r_notsources then c_not ret else ret

/-- Signed outcome of the attribute rule's sender criterion (absent
criterion is `1`). -/
def rule_crit_senders (r : Rule) (evp : Envelope) : Int :=
  match r.r_senders with
  | none => 1
  | some t =>
    let ret := ruleset_check_mailaddr t evp.sender
    if ret = -1 then -1 else if r.r_notsenders then c_not ret else ret

/-- Signed outcome of the attribute rule's recipient criterion (absent
criterion is `1`; it looks the destination address up). -/
def rule_crit_recipients (r : Rule) (evp : Envelope) : Int :=
  match r.r_recipients with
  | none => 1
  | some t =>
    let ret := ruleset_check_mailaddr t evp.dest
    if ret = -1 then -1 else if r.r_notrecipients then c_not ret else ret

/-- Signed outcome of the attribute rule's destination criterion (an
absent table counts as a raw match, to which the sign still applies,
as in the destination block). -/
def rule_crit_destination (r : Rule) (evp : Envelope) : Int :=
  let ret :=
    match r.r_destination with
    | none => 1
    | some t => table_lookup t evp.dest.domain .K_DOMAIN
  if ret = -1 then -1 else if r.r_notdestination then c_not ret else ret

/-- The signed criterion outcomes of an attribute-bundle rule in the
evaluation order of the `ruleset_match` loop body (tag omitted: for
the rules considered here it is absent). -/
def rule_crits (r : Rule) (evp : Envelope) : List Int :=
  [rule_crit_auth r evp, rule_crit_source r evp, rule_crit_senders r evp,
   rule_crit_recipients r evp, rule_crit_destination r evp]

/-- Adapter from the attribute-bundle representation to the generic
ordered-criterion representation: same present criteria, same signs,
same backing tables.  Defined for rules without a tag constraint (the
attribute tag criterion is a string comparison, not a table lookup,
so it has no generic counterpart backed by the same table). -/
def ruleToMatch (r : Rule) : Match :=
  { tag := 0
    tag_table := ⟨"", fun _ _ => .notfound⟩
    «from» := if r.r_notsources then -1 else 1
    from_table := r.r_sources
    from_socket := false
    «to» := match r.r_destination with
            | none => 0
            | some _ => if r.r_notdestination then -1 else 1
    to_table := match r.r_destination with
                | none => ⟨"", fun _ _ => .notfound⟩
                | some t => t
    smtp_helo := 0
    smtp_helo_table := ⟨"", fun _ _ => .notfound⟩
    smtp_auth := if r.r_wantauth then (if r.r_negwantauth then -1 else 1) else 0
    smtp_auth_table := none
    smtp_starttls := 0
    smtp_mail_from := match r.r_senders with
                      | none => 0
                      | some _ => if r.r_notsenders then -1 else 1
    smtp_mail_from_table := match r.r_senders with
                            | none => ⟨"", fun _ _ => .notfound⟩
                            | some t => t
    smtp_rcpt_to := match r.r_recipients with
                    | none => 0
                    | some _ => if r.r_notrecipients then -1 else 1
    smtp_rcpt_to_table := match r.r_recipients with
                          | none => ⟨"", fun _ _ => .notfound⟩
                          | some t => t }

/-- Map a matching outcome through a rule translation, preserving the
no-rule and indeterminate outcomes. -/
def MatchResult.map {α β : Type} (f : α → β) : MatchResult α → MatchResult β
  | .matched r => .matched (f r)
  | .noRuleMatched => .noRuleMatched
  | .indeterminate => .indeterminate

/-! ## Concrete fixtures used by witnesses and counterexamples -/

/-- A table whose backend finds no key. -/
def tblEmpty : Table := ⟨"empty", fun _ _ => .notfound⟩

/-- A table whose backend always fails. -/
def tblErr : Table := ⟨"err", fun _ _ => .error⟩

/-- A table containing exactly the key `"local"`. -/
def tblLocal : Table := ⟨"srcs", fun _ k => if k = "local" then .found else .notfound⟩

/-- A table whose backend finds every key. -/
def tblAll : Table := ⟨"all", fun _ _ => .found⟩

/-- An unauthenticated, non-internal envelope. -/
def evpPlain : Envelope :=
  { dest := ⟨"alice", "example.org"⟩
    sender := ⟨"bob", "example.net"⟩
    ss := "192.0.2.7"
    tag := ""
    helo := "mx.example.net"
    flags := ⟨false, false⟩ }

/-- The same envelope with the session authenticated (not internal). -/
def evpAuth : Envelope := { evpPlain with flags := ⟨true, false⟩ }

/-- A generic rule with every criterion absent. -/
def mAbsent : Match :=
  { tag := 0, tag_table := tblEmpty
    «from» := 0, from_table := tblEmpty, from_socket := false
    «to» := 0, to_table := tblEmpty
    smtp_helo := 0, smtp_helo_table := tblEmpty
    smtp_auth := 0, smtp_auth_table := none
    smtp_starttls := 0
    smtp_mail_from := 0, smtp_mail_from_table := tblEmpty
    smtp_rcpt_to := 0, smtp_rcpt_to_table := tblEmpty }

/-- A generic rule whose only present criterion is authentication,
with a credential table configured. -/
def mAuthTbl : Match := { mAbsent with smtp_auth := 1, smtp_auth_table := some tblEmpty }

/-- An attribute-bundle rule with all optional criteria absent and a
source table matching every origin. -/
def rPlain : Rule :=
  { r_tag := "", r_nottag := false
    r_wantauth := false, r_negwantauth := false
    r_sources := tblAll, r_notsources := false
    r_senders := none, r_notsenders := false
    r_recipients := none, r_notrecipients := false
    r_destination := none, r_notdestination := false }

/-! ## Helper lemmas -/

/-- The normalised lookup wrapper only produces `-1`, `0` or `1`. -/
theorem ruleset_match_table_lookup_cases (t : Table) (k : String) (s : TableService) :
    ruleset_match_table_lookup t k s = -1 ∨ ruleset_match_table_lookup t k s = 0 ∨
      ruleset_match_table_lookup t k s = 1 := by
  unfold ruleset_match_table_lookup table_lookup
  rcases t.t_lookup s k <;> norm_num

/-- A rule whose loop body says `continue` is skipped by `ruleset_match`. -/
theorem ruleset_match_cons_next {r : Rule} {evp : Envelope}
    (h : ruleset_match_one r evp = .next) (rs : List Rule) :
    ruleset_match (r :: rs) evp = ruleset_match rs evp := by
  simp [ruleset_match, h]

/-- Skipping a whole prefix of `continue` rules. -/
theorem ruleset_match_append_next (evp : Envelope) :
    ∀ (pre : List Rule), (∀ x ∈ pre, ruleset_match_one x evp = .next) →
      ∀ rs : List Rule, ruleset_match (pre ++ rs) evp = ruleset_match rs evp
  | [], _, _ => rfl
  | r :: pre, h, rs => by
    rw [List.cons_append, ruleset_match_cons_next (h r (by simp))]
    exact ruleset_match_append_next evp pre (fun x hx => h x (by simp [hx])) rs

/-- A generic rule whose loop body says `continue` is skipped by
`ruleset_match_new`. -/
theorem ruleset_match_new_cons_next {m : Match} {evp : Envelope}
    (h : match_eval m evp = .next) (ms : List Match) :
    ruleset_match_new (m :: ms) evp = ruleset_match_new ms evp := by
  simp [ruleset_match_new, h]

/-- Skipping a whole prefix of `continue` generic rules. -/
theorem ruleset_match_new_append_next (evp : Envelope) :
    ∀ (pre : List Match), (∀ x ∈ pre, match_eval x evp = .next) →
      ∀ ms : List Match, ruleset_match_new (pre ++ ms) evp = ruleset_match_new ms evp
  | [], _, _ => rfl
  | m :: pre, h, ms => by
    rw [List.cons_append, ruleset_match_new_cons_next (h m (by simp))]
    exact ruleset_match_new_append_next evp pre (fun x hx => h x (by simp [hx])) ms

/-- Unfolding equation for one `MATCH_EVAL` step. -/
theorem match_eval_list_cons (a : Int) (xs : List Int) :
    match_eval_list (a :: xs) =
      if a = -1 then .tempfail else if a = 0 then .next else match_eval_list xs := rfl

/-- `MATCH_EVAL` falls through every passing criterion. -/
theorem match_eval_list_append_pass :
    ∀ (pre : List Int), (∀ x ∈ pre, x ≠ -1 ∧ x ≠ 0) →
      ∀ xs : List Int, match_eval_list (pre ++ xs) = match_eval_list xs
  | [], _, _ => rfl
  | a :: pre, h, xs => by
    have ha := h a (by simp)
    rw [List.cons_append, match_eval_list_cons, if_neg ha.1, if_neg ha.2]
    exact match_eval_list_append_pass pre (fun x hx => h x (by simp [hx])) xs

/-- `table_lookup` only produces `-1`, `0` or `1` (the collaborator
contract is tri-valued). -/
theorem table_lookup_cases (t : Table) (k : String) (s : TableService) :
    table_lookup t k s = -1 ∨ table_lookup t k s = 0 ∨ table_lookup t k s = 1 := by
  unfold table_lookup
  rcases t.t_lookup s k <;> norm_num

/-- `ruleset_check_source` only produces `-1`, `0` or `1`. -/
theorem ruleset_check_source_cases (t : Table) (ss : String) (fl : EnvelopeFlags) :
    ruleset_check_source t ss fl = -1 ∨ ruleset_check_source t ss fl = 0 ∨
      ruleset_check_source t ss fl = 1 := by
  unfold ruleset_check_source
  dsimp only
  split_ifs <;> norm_num

/-- `ruleset_check_mailaddr` only produces `-1`, `0` or `1`. -/
theorem ruleset_check_mailaddr_cases (t : Table) (a : Mailaddr) :
    ruleset_check_mailaddr t a = -1 ∨ ruleset_check_mailaddr t a = 0 ∨
      ruleset_check_mailaddr t a = 1 := by
  unfold ruleset_check_mailaddr
  rcases mailaddr_to_text a with _ | key
  · norm_num
  · dsimp only
    split_ifs <;> norm_num

/-- `c_not` only produces `0` or `1`. -/
theorem c_not_cases (x : Int) : c_not x = 0 ∨ c_not x = 1 := by
  unfold c_not
  split_ifs <;> norm_num

/-- The signed authentication outcome is `0` or `1`. -/
theorem rule_crit_auth_cases (r : Rule) (evp : Envelope) :
    rule_crit_auth r evp = 0 ∨ rule_crit_auth r evp = 1 := by
  unfold rule_crit_auth
  split_ifs <;> norm_num

/-- The signed origin outcome is `-1`, `0` or `1`. -/
theorem rule_crit_source_cases (r : Rule) (evp : Envelope) :
    rule_crit_source r evp = -1 ∨ rule_crit_source r evp = 0 ∨
      rule_crit_source r evp = 1 := by
  unfold rule_crit_source
  dsimp only
  rcases ruleset_check_source_cases r.r_sources evp.ss evp.flags with h | h | h <;>
    rw [h] <;> cases r.r_notsources <;> simp [c_not]

/-- The signed sender outcome is `-1`, `0` or `1`. -/
theorem rule_crit_senders_cases (r : Rule) (evp : Envelope) :
    rule_crit_senders r evp = -1 ∨ rule_crit_senders r evp = 0 ∨
      rule_crit_senders r evp = 1 := by
  unfold rule_crit_senders
  rcases hs : r.r_senders with _ | t
  · norm_num
  · dsimp only
    rcases ruleset_check_mailaddr_cases t evp.sender with h | h | h <;>
      rw [h] <;> cases r.r_notsenders <;> simp [c_not]

/-- The signed recipient outcome is `-1`, `0` or `1`. -/
theorem rule_crit_recipients_cases (r : Rule) (evp : Envelope) :
    rule_crit_recipients r evp = -1 ∨ rule_crit_recipients r evp = 0 ∨
      rule_crit_recipients r evp = 1 := by
  unfold rule_crit_recipients
  rcases hr : r.r_recipients with _ | t
  · norm_num
  · dsimp only
    rcases ruleset_check_mailaddr_cases t evp.dest with h | h | h <;>
      rw [h] <;> cases r.r_notrecipients <;> simp [c_not]

/-- The signed destination outcome is `-1`, `0` or `1`. -/
theorem rule_crit_destination_cases (r : Rule) (evp : Envelope) :
    rule_crit_destination r evp = -1 ∨ rule_crit_destination r evp = 0 ∨
      rule_crit_destination r evp = 1 := by
  unfold rule_crit_destination
  rcases hd : r.r_destination with _ | t
  · dsimp only
    cases r.r_notdestination <;> simp [c_not]
  · dsimp only
    rcases table_lookup_cases t evp.dest.domain .K_DOMAIN with h | h | h <;>
      rw [h] <;> cases r.r_notdestination <;> simp [c_not]

/-- The tag block is neutral when the rule has no tag constraint. -/
theorem rule_block_tag_absent (r : Rule) (evp : Envelope) (h : r.r_tag = "") :
    rule_block_tag r evp = none := by
  simp [rule_block_tag, h]

/-- The authentication block in terms of its signed outcome. -/
theorem rule_block_auth_crit (r : Rule) (evp : Envelope) :
    rule_block_auth r evp =
      (if rule_crit_auth r evp = 0 then some .next else none) := by
  unfold rule_block_auth rule_crit_auth
  cases hw : r.r_wantauth <;> cases hn : r.r_negwantauth <;>
    cases ha : evp.flags.authenticated <;> simp

/-- The source block in terms of its signed outcome. -/
theorem rule_block_sources_crit (r : Rule) (evp : Envelope) :
    rule_block_sources r evp =
      (if rule_crit_source r evp = -1 then some .tempfail
       else if rule_crit_source r evp = 0 then some .next else none) := by
  unfold rule_block_sources rule_crit_source
  dsimp only
  rcases ruleset_check_source_cases r.r_sources evp.ss evp.flags with h | h | h <;>
    rw [h] <;> cases r.r_notsources <;> simp [c_not]

/-- The senders block in terms of its signed outcome. -/
theorem rule_block_senders_crit (r : Rule) (evp : Envelope) :
    rule_block_senders r evp =
      (if rule_crit_senders r evp = -1 then some .tempfail
       else if rule_crit_senders r evp = 0 then some .next else none) := by
  unfold rule_block_senders rule_crit_senders
  rcases hs : r.r_senders with _ | t
  · simp
  · dsimp only
    rcases ruleset_check_mailaddr_cases t evp.sender with h | h | h <;>
      rw [h] <;> cases r.r_notsenders <;> simp [c_not]

/-- The recipients block in terms of its signed outcome. -/
theorem rule_block_recipients_crit (r : Rule) (evp : Envelope) :
    rule_block_recipients r evp =
      (if rule_crit_recipients r evp = -1 then some .tempfail
       else if rule_crit_recipients r evp = 0 then some .next else none) := by
  unfold rule_block_recipients rule_crit_recipients
  rcases hr : r.r_recipients with _ | t
  · simp
  · dsimp only
    rcases ruleset_check_mailaddr_cases t evp.dest with h | h | h <;>
      rw [h] <;> cases r.r_notrecipients <;> simp [c_not]

/-- The destination block in terms of its signed outcome. -/
theorem rule_block_destination_crit (r : Rule) (evp : Envelope) :
    rule_block_destination r evp =
      (if rule_crit_destination r evp = -1 then .tempfail
       else if rule_crit_destination r evp = 0 then .next else .matched) := by
  unfold rule_block_destination rule_crit_destination
  rcases hd : r.r_destination with _ | t
  · dsimp only
    cases r.r_notdestination <;> simp [c_not]
  · dsimp only
    rcases table_lookup_cases t evp.dest.domain .K_DOMAIN with h | h | h <;>
      rw [h] <;> cases r.r_notdestination <;> simp [c_not]

/-- For a rule without tag constraint, the loop body of `ruleset_match`
is the `MATCH_EVAL`-style reduction of its signed criterion outcomes
in attribute-matcher order. -/
theorem ruleset_match_one_eq_crits (r : Rule) (evp : Envelope) (htag : r.r_tag = "") :
    ruleset_match_one r evp = match_eval_list (rule_crits r evp) := by
  unfold ruleset_match_one rule_crits
  rw [rule_block_tag_absent r evp htag, rule_block_auth_crit, rule_block_sources_crit,
      rule_block_senders_crit, rule_block_recipients_crit, rule_block_destination_crit]
  rcases rule_crit_auth_cases r evp with h1 | h1 <;>
  rcases rule_crit_source_cases r evp with h2 | h2 | h2 <;>
  rcases rule_crit_senders_cases r evp with h3 | h3 | h3 <;>
  rcases rule_crit_recipients_cases r evp with h4 | h4 | h4 <;>
  rcases rule_crit_destination_cases r evp with h5 | h5 | h5 <;>
  simp [h1, h2, h3, h4, h5, match_eval_list]

/-- The adapter leaves the tag criterion absent, so it passes. -/
theorem ruleset_match_tag_toMatch (r : Rule) (evp : Envelope) :
    ruleset_match_tag (ruleToMatch r) evp = 1 := rfl

/-- The adapter leaves the HELO criterion absent, so it passes. -/
theorem ruleset_match_smtp_helo_toMatch (r : Rule) (evp : Envelope) :
    ruleset_match_smtp_helo (ruleToMatch r) evp = 1 := rfl

/-- The adapter leaves the starttls criterion absent, so it passes. -/
theorem ruleset_match_smtp_starttls_toMatch (r : Rule) (evp : Envelope) :
    ruleset_match_smtp_starttls (ruleToMatch r) evp = 1 := rfl

/-- Under the adapter, and for an envelope whose origin key derivation
agrees between the two matchers (authenticated implies internal), the
generic origin criterion computes the attribute rule's signed origin
outcome. -/
theorem ruleset_match_from_toMatch (r : Rule) (evp : Envelope)
    (hflag : evp.flags.authenticated = true → evp.flags.internal = true) :
    ruleset_match_from (ruleToMatch r) evp = rule_crit_source r evp := by
  have hkey : ruleset_match_from_key evp = ruleset_check_source_key evp.flags evp.ss := by
    unfold ruleset_match_from_key ruleset_check_source_key
    cases hi : evp.flags.internal
    · cases ha : evp.flags.authenticated
      · simp [ss_to_text]
      · exact absurd (hflag ha) (by simp [hi])
    · simp
  unfold ruleset_match_from rule_crit_source ruleset_match_table_lookup ruleset_check_source
  dsimp only
  rw [hkey]
  rcases table_lookup_cases r.r_sources (ruleset_check_source_key evp.flags evp.ss) .K_NETADDR
    with h | h | h <;>
    simp only [ruleToMatch] <;> simp only [h] <;> cases r.r_notsources <;> simp [c_not]

/-- Under the adapter, the generic destination criterion computes the
attribute rule's signed destination outcome, provided an absent
destination table is not negated (a combination inexpressible in the
generic representation). -/
theorem ruleset_match_to_toMatch (r : Rule) (evp : Envelope)
    (hdest : r.r_destination = none → r.r_notdestination = false) :
    ruleset_match_to (ruleToMatch r) evp = rule_crit_destination r evp := by
  unfold ruleset_match_to rule_crit_destination ruleset_match_table_lookup
  rcases hd : r.r_destination with _ | t
  · simp [ruleToMatch, hd, hdest hd, c_not]
  · dsimp only
    rcases table_lookup_cases t evp.dest.domain .K_DOMAIN with h | h | h <;>
      simp only [ruleToMatch, hd] <;> simp only [h] <;> cases r.r_notdestination <;> simp [c_not]

/-- Under the adapter, the generic authentication criterion computes
the attribute rule's signed authentication outcome (no credential
table is configured). -/
theorem ruleset_match_smtp_auth_toMatch (r : Rule) (evp : Envelope) :
    ruleset_match_smtp_auth (ruleToMatch r) evp = rule_crit_auth r evp := by
  unfold ruleset_match_smtp_auth rule_crit_auth
  cases hw : r.r_wantauth <;> cases hn : r.r_negwantauth <;>
    cases ha : evp.flags.authenticated <;> simp [ruleToMatch, hw, hn, ha, c_not]

/-- Under the adapter, the generic sender criterion computes the
attribute rule's signed sender outcome. -/
theorem ruleset_match_smtp_mail_from_toMatch (r : Rule) (evp : Envelope) :
    ruleset_match_smtp_mail_from (ruleToMatch r) evp = rule_crit_senders r evp := by
  unfold ruleset_match_smtp_mail_from rule_crit_senders ruleset_check_mailaddr
    ruleset_match_table_lookup
  rcases hs : r.r_senders with _ | t
  · simp [ruleToMatch, hs]
  · rcases hm : mailaddr_to_text evp.sender with _ | key
    · cases hns : r.r_notsenders <;> simp [ruleToMatch, hs, hns, hm]
    · dsimp only
      rcases table_lookup_cases t key .K_MAILADDR with h | h | h <;>
        simp only [ruleToMatch, hs, hm] <;> simp only [h] <;> cases r.r_notsenders <;>
        simp [c_not]

/-- Under the adapter, the generic recipient criterion computes the
attribute rule's signed recipient outcome. -/
theorem ruleset_match_smtp_rcpt_to_toMatch (r : Rule) (evp : Envelope) :
    ruleset_match_smtp_rcpt_to (ruleToMatch r) evp = rule_crit_recipients r evp := by
  unfold ruleset_match_smtp_rcpt_to rule_crit_recipients ruleset_check_mailaddr
    ruleset_match_table_lookup
  rcases hr : r.r_recipients with _ | t
  · simp [ruleToMatch, hr]
  · rcases hm : mailaddr_to_text evp.dest with _ | key
    · cases hnr : r.r_notrecipients <;> simp [ruleToMatch, hr, hnr, hm]
    · dsimp only
      rcases table_lookup_cases t key .K_MAILADDR with h | h | h <;>
        simp only [ruleToMatch, hr, hm] <;> simp only [h] <;> cases r.r_notrecipients <;>
        simp [c_not]

/-- A passing criterion result is skipped by `MATCH_EVAL`. -/
theorem match_eval_list_one_cons (xs : List Int) :
    match_eval_list (1 :: xs) = match_eval_list xs := by
  rw [match_eval_list_cons]
  norm_num

/-- Under the adapter, the loop body of `ruleset_match_new` is the
`MATCH_EVAL` reduction of the attribute rule's signed criterion
outcomes in generic-matcher order (origin, destination,
authentication, sender, recipient). -/
theorem match_eval_toMatch (r : Rule) (evp : Envelope)
    (hflag : evp.flags.authenticated = true → evp.flags.internal = true)
    (hdest : r.r_destination = none → r.r_notdestination = false) :
    match_eval (ruleToMatch r) evp =
      match_eval_list [rule_crit_source r evp, rule_crit_destination r evp,
        rule_crit_auth r evp, rule_crit_senders r evp, rule_crit_recipients r evp] := by
  unfold match_eval match_crits
  rw [ruleset_match_tag_toMatch, ruleset_match_from_toMatch r evp hflag,
      ruleset_match_to_toMatch r evp hdest, ruleset_match_smtp_helo_toMatch,
      ruleset_match_smtp_auth_toMatch, ruleset_match_smtp_starttls_toMatch,
      ruleset_match_smtp_mail_from_toMatch, ruleset_match_smtp_rcpt_to_toMatch,
      match_eval_list_one_cons]
  rcases rule_crit_source_cases r evp with h2 | h2 | h2 <;>
  rcases rule_crit_destination_cases r evp with h5 | h5 | h5 <;>
    simp [h2, h5, match_eval_list, match_eval_list_one_cons]

/-- Reordering tri-valued criteria does not change the `MATCH_EVAL`
reduction as long as no indeterminate co-occurs with a no-match. -/
theorem match_eval_list_order5 (a s sn rc d : Int)
    (ha : a = 0 ∨ a = 1)
    (hs : s = -1 ∨ s = 0 ∨ s = 1)
    (hsn : sn = -1 ∨ sn = 0 ∨ sn = 1)
    (hrc : rc = -1 ∨ rc = 0 ∨ rc = 1)
    (hd : d = -1 ∨ d = 0 ∨ d = 1)
    (hmix : ¬((-1 : Int) ∈ [a, s, sn, rc, d] ∧ (0 : Int) ∈ [a, s, sn, rc, d])) :
    match_eval_list [s, d, a, sn, rc] = match_eval_list [a, s, sn, rc, d] := by
  rcases ha with h | h <;> subst h <;>
  rcases hs with h | h | h <;> subst h <;>
  rcases hsn with h | h | h <;> subst h <;>
  rcases hrc with h | h | h <;> subst h <;>
  rcases hd with h | h | h <;> subst h <;>
  revert hmix <;> decide

/-- Under the adapter and the agreement hypotheses, the two loop
bodies agree on every rule. -/
theorem match_eval_toMatch_eq_one (r : Rule) (evp : Envelope)
    (htag : r.r_tag = "")
    (hdest : r.r_destination = none → r.r_notdestination = false)
    (hflag : evp.flags.authenticated = true → evp.flags.internal = true)
    (hmix : ¬((-1 : Int) ∈ rule_crits r evp ∧ (0 : Int) ∈ rule_crits r evp)) :
    match_eval (ruleToMatch r) evp = ruleset_match_one r evp := by
  rw [match_eval_toMatch r evp hflag hdest, ruleset_match_one_eq_crits r evp htag]
  unfold rule_crits at hmix ⊢
  exact match_eval_list_order5 _ _ _ _ _
    (rule_crit_auth_cases r evp) (rule_crit_source_cases r evp)
    (rule_crit_senders_cases r evp) (rule_crit_recipients_cases r evp)
    (rule_crit_destination_cases r evp) hmix

/-- Unfolding equation of `ruleset_match` on a nonempty list. -/
theorem ruleset_match_cons (r : Rule) (rs : List Rule) (evp : Envelope) :
    ruleset_match (r :: rs) evp =
      (match ruleset_match_one r evp with
       | .matched => .matched r
       | .next => ruleset_match rs evp
       | .tempfail => .indeterminate) := rfl

/-- Unfolding equation of `ruleset_match_new` on a nonempty list. -/
theorem ruleset_match_new_cons (m : Match) (ms : List Match) (evp : Envelope) :
    ruleset_match_new (m :: ms) evp =
      (match match_eval m evp with
       | .matched => .matched m
       | .next => ruleset_match_new ms evp
       | .tempfail => .indeterminate) := rfl

/-- Under the adapter and the agreement hypotheses, the two matchers
agree on a whole rule list, rule for rule. -/
theorem ruleset_match_new_map_toMatch :
    ∀ (rs : List Rule) (evp : Envelope),
      (evp.flags.authenticated = true → evp.flags.internal = true) →
      (∀ r ∈ rs, r.r_tag = "" ∧ (r.r_destination = none → r.r_notdestination = false)) →
      (∀ r ∈ rs, ¬((-1 : Int) ∈ rule_crits r evp ∧ (0 : Int) ∈ rule_crits r evp)) →
      ruleset_match_new (rs.map ruleToMatch) evp = (ruleset_match rs evp).map ruleToMatch
  | [], _, _, _, _ => rfl
  | r :: rs, evp, hflag, hexp, hmix => by
    rw [List.map_cons, ruleset_match_new_cons, ruleset_match_cons,
      match_eval_toMatch_eq_one r evp (hexp r (by simp)).1 (hexp r (by simp)).2 hflag
        (hmix r (by simp))]
    cases ruleset_match_one r evp
    · rfl
    · exact ruleset_match_new_map_toMatch rs evp hflag
        (fun x hx => hexp x (by simp [hx])) (fun x hx => hmix x (by simp [hx]))
    · rfl

/-! ## Claims -/

/-- C1: any indeterminate criterion outcome (a backend lookup error or
an unrenderable mail address) aborts the whole matching call to the
indeterminate outcome: the remaining criteria of the failing rule and
every later rule are irrelevant to the result, which is neither a
selected rule nor no-rule-matched, in both matchers. -/
theorem C1_indeterminate_short_circuits :
    (∀ (t : Table) (a : Mailaddr), mailaddr_to_text a = none →
        ruleset_check_mailaddr t a = -1)
    ∧ (∀ (t : Table) (k : String) (s : TableService), table_lookup t k s = -1 →
        ruleset_match_table_lookup t k s = -1)
    ∧ (∀ (pre rest : List Int), (∀ x ∈ pre, x ≠ -1 ∧ x ≠ 0) →
        match_eval_list (pre ++ (-1 : Int) :: rest) = .tempfail)
    ∧ (∀ (pre : List Match) (m : Match) (rest : List Match) (evp : Envelope),
        (∀ x ∈ pre, match_eval x evp = .next) → match_eval m evp = .tempfail →
        ruleset_match_new (pre ++ m :: rest) evp = .indeterminate)
    ∧ (∀ (pre : List Rule) (r : Rule) (rest : List Rule) (evp : Envelope),
        (∀ x ∈ pre, ruleset_match_one x evp = .next) →
        ruleset_match_one r evp = .tempfail →
        ruleset_match (pre ++ r :: rest) evp = .indeterminate) := by
  refine ⟨?_, ?_, ?_, ?_, ?_⟩
  · intro t a h
    simp [ruleset_check_mailaddr, h]
  · intro t k s h
    simp [ruleset_match_table_lookup, h]
  · intro pre rest h
    rw [match_eval_list_append_pass pre h, match_eval_list_cons]
    norm_num
  · intro pre m rest evp hpre hm
    rw [ruleset_match_new_append_next evp pre hpre, ruleset_match_new_cons, hm]
  · intro pre r rest evp hpre hr
    rw [ruleset_match_append_next evp pre hpre, ruleset_match_cons, hr]

/-- C1 witness: a present transport-security criterion aborts a
concrete generic call; an erroring source table aborts a concrete
attribute call. -/
theorem C1_witness :
    ruleset_match_new [{ mAbsent with smtp_starttls := 1 }] evpPlain = .indeterminate ∧
    ruleset_match [{ rPlain with r_sources := tblErr }] evpPlain = .indeterminate :=
  ⟨C1_indeterminate_short_circuits.2.2.2.1 [] _ [] evpPlain (by simp) rfl,
   C1_indeterminate_short_circuits.2.2.2.2 [] _ [] evpPlain (by simp) rfl⟩

/-- C6: an empty rule list, or a list whose rules all say `continue`,
produces the no-rule-matched outcome, which is distinct from the
indeterminate outcome, in both matchers. -/
theorem C6_exhaustion_no_rule :
    (∀ evp : Envelope, ruleset_match [] evp = .noRuleMatched)
    ∧ (∀ evp : Envelope, ruleset_match_new [] evp = .noRuleMatched)
    ∧ (∀ (rs : List Rule) (evp : Envelope),
        (∀ r ∈ rs, ruleset_match_one r evp = .next) →
        ruleset_match rs evp = .noRuleMatched)
    ∧ (∀ (ms : List Match) (evp : Envelope),
        (∀ m ∈ ms, match_eval m evp = .next) →
        ruleset_match_new ms evp = .noRuleMatched)
    ∧ ((MatchResult.noRuleMatched : MatchResult Rule) ≠ .indeterminate)
    ∧ ((MatchResult.noRuleMatched : MatchResult Match) ≠ .indeterminate) := by
  refine ⟨fun _ => rfl, fun _ => rfl, ?_, ?_,
    fun h => MatchResult.noConfusion h, fun h => MatchResult.noConfusion h⟩
  · intro rs evp h
    have h2 := ruleset_match_append_next evp rs h []
    rw [List.append_nil] at h2
    rw [h2]
    rfl
  · intro ms evp h
    have h2 := ruleset_match_new_append_next evp ms h []
    rw [List.append_nil] at h2
    rw [h2]
    rfl

/-- C6 witness: concrete exhausted rule lists. -/
theorem C6_witness :
    ruleset_match [{ rPlain with r_sources := tblEmpty }] evpPlain = .noRuleMatched ∧
    ruleset_match_new [{ mAbsent with «from» := 1 }] evpPlain = .noRuleMatched :=
  ⟨C6_exhaustion_no_rule.2.2.1 _ evpPlain
      (by intro r hr; rw [List.mem_singleton] at hr; subst hr; rfl),
   C6_exhaustion_no_rule.2.2.2.1 _ evpPlain
      (by intro m hm; rw [List.mem_singleton] at hm; subst hm; rfl)⟩

/-- C7: matching is deterministic in its inputs, and of two rules that
would both fully match, the earlier one in list order is selected, in
both matchers. -/
theorem C7_order_determinism :
    (∀ (rs : List Rule) (evp : Envelope) (res res' : MatchResult Rule),
        res = ruleset_match rs evp → res' = ruleset_match rs evp → res = res')
    ∧ (∀ (ms : List Match) (evp : Envelope) (res res' : MatchResult Match),
        res = ruleset_match_new ms evp → res' = ruleset_match_new ms evp → res = res')
    ∧ (∀ (pre mid rest : List Rule) (r r' : Rule) (evp : Envelope),
        (∀ x ∈ pre, ruleset_match_one x evp = .next) →
        ruleset_match_one r evp = .matched → ruleset_match_one r' evp = .matched →
        ruleset_match (pre ++ r :: (mid ++ r' :: rest)) evp = .matched r)
    ∧ (∀ (pre mid rest : List Match) (m m' : Match) (evp : Envelope),
        (∀ x ∈ pre, match_eval x evp = .next) →
        match_eval m evp = .matched → match_eval m' evp = .matched →
        ruleset_match_new (pre ++ m :: (mid ++ m' :: rest)) evp = .matched m) := by
  refine ⟨?_, ?_, ?_, ?_⟩
  · intro rs evp res res' h h'
    rw [h, h']
  · intro ms evp res res' h h'
    rw [h, h']
  · intro pre mid rest r r' evp hpre hr _
    rw [ruleset_match_append_next evp pre hpre, ruleset_match_cons, hr]
  · intro pre mid rest m m' evp hpre hm _
    rw [ruleset_match_new_append_next evp pre hpre, ruleset_match_new_cons, hm]

/-- C7 witness: two concrete lists whose first and second rules would
both match; the first is selected. -/
theorem C7_witness :
    ruleset_match [rPlain, { rPlain with r_destination := some tblAll }] evpPlain
      = .matched rPlain ∧
    ruleset_match_new [mAbsent, { mAbsent with smtp_auth := -1 }] evpPlain
      = .matched mAbsent :=
  ⟨C7_order_determinism.2.2.1 [] [] [] rPlain _ evpPlain (by simp) rfl rfl,
   C7_order_determinism.2.2.2 [] [] [] mAbsent _ evpPlain (by simp) rfl rfl⟩

/-- C8: a criterion whose presence field is unset passes without any
table lookup (each generic criterion, for every table and envelope),
so a generic rule with no present criterion matches every envelope;
in the attribute matcher each optional criterion is likewise neutral
when absent: an empty tag leaves the outcome independent of the
envelope tag, and an absent senders table leaves it independent of
the sender address. -/
theorem C8_absent_criterion_neutral :
    (∀ (m : Match) (evp : Envelope), m.tag = 0 → ruleset_match_tag m evp = 1)
    ∧ (∀ (m : Match) (evp : Envelope), m.«from» = 0 → ruleset_match_from m evp = 1)
    ∧ (∀ (m : Match) (evp : Envelope), m.«to» = 0 → ruleset_match_to m evp = 1)
    ∧ (∀ (m : Match) (evp : Envelope), m.smtp_helo = 0 →
        ruleset_match_smtp_helo m evp = 1)
    ∧ (∀ (m : Match) (evp : Envelope), m.smtp_auth = 0 →
        ruleset_match_smtp_auth m evp = 1)
    ∧ (∀ (m : Match) (evp : Envelope), m.smtp_starttls = 0 →
        ruleset_match_smtp_starttls m evp = 1)
    ∧ (∀ (m : Match) (evp : Envelope), m.smtp_mail_from = 0 →
        ruleset_match_smtp_mail_from m evp = 1)
    ∧ (∀ (m : Match) (evp : Envelope), m.smtp_rcpt_to = 0 →
        ruleset_match_smtp_rcpt_to m evp = 1)
    ∧ (∀ (m : Match) (ms : List Match) (evp : Envelope),
        m.tag = 0 → m.«from» = 0 → m.«to» = 0 → m.smtp_helo = 0 → m.smtp_auth = 0 →
        m.smtp_starttls = 0 → m.smtp_mail_from = 0 → m.smtp_rcpt_to = 0 →
        ruleset_match_new (m :: ms) evp = .matched m)
    ∧ (∀ (r : Rule) (evp : Envelope) (t : String), r.r_tag = "" →
        ruleset_match_one r evp = ruleset_match_one r { evp with tag := t })
    ∧ (∀ (r : Rule) (evp : Envelope) (a : Mailaddr), r.r_senders = none →
        ruleset_match_one r evp = ruleset_match_one r { evp with sender := a }) := by
  refine ⟨?_, ?_, ?_, ?_, ?_, ?_, ?_, ?_, ?_, ?_, ?_⟩
  · intro m evp h
    simp [ruleset_match_tag, h]
  · intro m evp h
    simp [ruleset_match_from, h]
  · intro m evp h
    simp [ruleset_match_to, h]
  · intro m evp h
    simp [ruleset_match_smtp_helo, h]
  · intro m evp h
    simp [ruleset_match_smtp_auth, h]
  · intro m evp h
    simp [ruleset_match_smtp_starttls, h]
  · intro m evp h
    simp [ruleset_match_smtp_mail_from, h]
  · intro m evp h
    simp [ruleset_match_smtp_rcpt_to, h]
  · intro m ms evp h1 h2 h3 h4 h5 h6 h7 h8
    have he : match_eval m evp = .matched := by
      unfold match_eval match_crits
      simp [ruleset_match_tag, ruleset_match_from, ruleset_match_to,
        ruleset_match_smtp_helo, ruleset_match_smtp_auth, ruleset_match_smtp_starttls,
        ruleset_match_smtp_mail_from, ruleset_match_smtp_rcpt_to,
        h1, h2, h3, h4, h5, h6, h7, h8, match_eval_list]
    rw [ruleset_match_new_cons, he]
  · intro r evp t h
    unfold ruleset_match_one
    rw [rule_block_tag_absent r evp h, rule_block_tag_absent r { evp with tag := t } h]
    rfl
  · intro r evp a h
    unfold ruleset_match_one rule_block_senders
    rw [h]
    rfl

/-- C8 witness: the all-absent generic rule matches a concrete
envelope, and a concrete attribute rule's outcome survives changing
the envelope tag and sender. -/
theorem C8_witness :
    ruleset_match_new [mAbsent] evpPlain = .matched mAbsent ∧
    ruleset_match_one rPlain evpPlain
      = ruleset_match_one rPlain { evpPlain with tag := "other" } ∧
    ruleset_match_one rPlain evpPlain
      = ruleset_match_one rPlain { evpPlain with sender := ⟨"x", "y"⟩ } :=
  ⟨C8_absent_criterion_neutral.2.2.2.2.2.2.2.2.1 mAbsent [] evpPlain
      rfl rfl rfl rfl rfl rfl rfl rfl,
   C8_absent_criterion_neutral.2.2.2.2.2.2.2.2.2.1 rPlain evpPlain "other" rfl,
   C8_absent_criterion_neutral.2.2.2.2.2.2.2.2.2.2 rPlain evpPlain ⟨"x", "y"⟩ rfl⟩

/-- C5: sign inversion is applied after the raw predicate and only to
boolean results: flipping the sign of a present tag or sender
criterion swaps match and no-match, while an indeterminate raw result
(backend error or unrenderable address) is unchanged by the sign. -/
theorem C5_sign_inversion_after_raw :
    ∀ (m : Match) (evp : Envelope),
      (0 < m.tag →
        (ruleset_match_tag m evp = -1 ↔
          ruleset_match_tag { m with tag := -m.tag } evp = -1) ∧
        (ruleset_match_tag m evp = 1 →
          ruleset_match_tag { m with tag := -m.tag } evp = 0) ∧
        (ruleset_match_tag m evp = 0 →
          ruleset_match_tag { m with tag := -m.tag } evp = 1))
      ∧ (0 < m.smtp_mail_from →
        (ruleset_match_smtp_mail_from m evp = -1 ↔
          ruleset_match_smtp_mail_from { m with smtp_mail_from := -m.smtp_mail_from } evp
            = -1) ∧
        (ruleset_match_smtp_mail_from m evp = 1 →
          ruleset_match_smtp_mail_from { m with smtp_mail_from := -m.smtp_mail_from } evp
            = 0) ∧
        (ruleset_match_smtp_mail_from m evp = 0 →
          ruleset_match_smtp_mail_from { m with smtp_mail_from := -m.smtp_mail_from } evp
            = 1)) := by
  intro m evp
  constructor
  · intro hpos
    have h0 : ¬ m.tag = 0 := by omega
    have h1 : ¬ m.tag < 0 := by omega
    have h2 : ¬ -m.tag = 0 := by omega
    have h3 : -m.tag < 0 := by omega
    rcases ruleset_match_table_lookup_cases m.tag_table evp.tag .K_STRING with h | h | h <;>
      simp [ruleset_match_tag, h, h0, h1, h2, h3, c_not]
  · intro hpos
    have h0 : ¬ m.smtp_mail_from = 0 := by omega
    have h1 : ¬ m.smtp_mail_from < 0 := by omega
    have h2 : ¬ -m.smtp_mail_from = 0 := by omega
    have h3 : -m.smtp_mail_from < 0 := by omega
    rcases hm : mailaddr_to_text evp.sender with _ | key
    · simp [ruleset_match_smtp_mail_from, hm, h0, h2]
    · rcases ruleset_match_table_lookup_cases m.smtp_mail_from_table key .K_MAILADDR
        with h | h | h <;>
        simp [ruleset_match_smtp_mail_from, hm, h, h0, h1, h2, h3, c_not]

/-- C5 witness: with an erroring tag table the inverted criterion is
still indeterminate; with a missing tag key the inverted criterion
matches. -/
theorem C5_witness :
    ruleset_match_tag { mAbsent with tag := -1, tag_table := tblErr } evpPlain = -1 ∧
    ruleset_match_tag { mAbsent with tag := -1 } evpPlain = 1 := by
  constructor
  · exact ((C5_sign_inversion_after_raw { mAbsent with tag := 1, tag_table := tblErr }
      evpPlain).1 (by norm_num)).1.mp rfl
  · exact ((C5_sign_inversion_after_raw { mAbsent with tag := 1 } evpPlain).1
      (by norm_num)).2.2 rfl

/-- C10: when a credential table is configured, the authentication
criterion is indeterminate only for authenticated sessions; an
unauthenticated session gets the raw no-match without any lookup, to
which sign inversion still applies. -/
theorem C10_auth_requires_authenticated :
    ∀ (m : Match) (evp : Envelope),
      (ruleset_match_smtp_auth m evp = -1 → evp.flags.authenticated = true)
      ∧ (m.smtp_auth_table.isSome = true → evp.flags.authenticated = false →
          0 < m.smtp_auth → ruleset_match_smtp_auth m evp = 0)
      ∧ (m.smtp_auth_table.isSome = true → evp.flags.authenticated = false →
          m.smtp_auth < 0 → ruleset_match_smtp_auth m evp = 1) := by
  intro m evp
  refine ⟨?_, ?_, ?_⟩
  · intro h
    by_contra hb
    rw [Bool.not_eq_true] at hb
    by_cases h0 : m.smtp_auth = 0
    · simp [ruleset_match_smtp_auth, h0] at h
    · simp only [ruleset_match_smtp_auth, h0, hb, c_not] at h
      split_ifs at h
      all_goals simp_all
  · intro _ hb hpos
    have h0 : ¬ m.smtp_auth = 0 := by omega
    have h1 : ¬ m.smtp_auth < 0 := by omega
    simp [ruleset_match_smtp_auth, h0, h1, hb]
  · intro _ hb hneg
    have h0 : ¬ m.smtp_auth = 0 := by omega
    simp [ruleset_match_smtp_auth, h0, hneg, hb, c_not]

/-- C10 witness: a configured credential table with an unauthenticated
session yields no-match, and match under an inverted sign. -/
theorem C10_witness :
    ruleset_match_smtp_auth
      { mAbsent with smtp_auth := 1, smtp_auth_table := some tblEmpty } evpPlain = 0 ∧
    ruleset_match_smtp_auth
      { mAbsent with smtp_auth := -1, smtp_auth_table := some tblEmpty } evpPlain = 1 :=
  ⟨(C10_auth_requires_authenticated _ evpPlain).2.1 rfl rfl (by norm_num),
   (C10_auth_requires_authenticated _ evpPlain).2.2 rfl rfl (by norm_num)⟩

/-- C2 counterexample: for an authenticated, non-internal session the
generic origin criterion keys on the textual network address, not on
the literal "local" that the attribute matcher uses, so a sources
table containing "local" matches in the attribute matcher and misses
in the generic one. -/
theorem C2_counterexample :
    evpAuth.flags.authenticated = true ∧
    evpAuth.flags.internal = false ∧
    ruleset_check_source_key evpAuth.flags evpAuth.ss = "local" ∧
    ruleset_match_from_key evpAuth = "192.0.2.7" ∧
    ruleset_check_source tblLocal evpAuth.ss evpAuth.flags = 1 ∧
    ruleset_match_from { mAbsent with «from» := 1, from_table := tblLocal } evpAuth = 0 :=
  ⟨rfl, rfl, rfl, rfl, rfl, rfl⟩

/-- C2 amended: the attribute matcher derives the origin key "local"
for an authenticated or internal session, and the textual network
address otherwise; the generic matcher derives "local" only for an
internal session, and the textual network address otherwise —
including for authenticated non-internal sessions. -/
theorem C2_local_key_derivation :
    (∀ (fl : EnvelopeFlags) (ss : String),
        (fl.authenticated = true ∨ fl.internal = true) →
        ruleset_check_source_key fl ss = "local")
    ∧ (∀ (fl : EnvelopeFlags) (ss : String),
        fl.authenticated = false → fl.internal = false →
        ruleset_check_source_key fl ss = ss_to_text ss)
    ∧ (∀ evp : Envelope, evp.flags.internal = true →
        ruleset_match_from_key evp = "local")
    ∧ (∀ evp : Envelope, evp.flags.internal = false →
        ruleset_match_from_key evp = ss_to_text evp.ss) := by
  refine ⟨?_, ?_, ?_, ?_⟩
  · intro fl ss h
    rcases h with h | h <;> simp [ruleset_check_source_key, h]
  · intro fl ss h1 h2
    simp [ruleset_check_source_key, h1, h2]
  · intro evp h
    simp [ruleset_match_from_key, h]
  · intro evp h
    simp [ruleset_match_from_key, h]

/-- C2 witness: the four key derivations at concrete flags. -/
theorem C2_witness :
    ruleset_check_source_key ⟨true, false⟩ "192.0.2.7" = "local" ∧
    ruleset_check_source_key ⟨false, false⟩ "192.0.2.7" = ss_to_text "192.0.2.7" ∧
    ruleset_match_from_key { evpPlain with flags := ⟨false, true⟩ } = "local" ∧
    ruleset_match_from_key evpAuth = ss_to_text evpAuth.ss :=
  ⟨C2_local_key_derivation.1 _ _ (Or.inl rfl),
   C2_local_key_derivation.2.1 _ _ rfl rfl,
   C2_local_key_derivation.2.2.1 _ rfl,
   C2_local_key_derivation.2.2.2 _ rfl⟩

/-- C4 counterexample: a present authentication criterion with a
configured credential table yields plain no-match — not
indeterminate — for an unauthenticated envelope. -/
theorem C4_counterexample :
    mAuthTbl.smtp_auth_table.isSome = true ∧
    evpPlain.flags.authenticated = false ∧
    ruleset_match_smtp_auth mAuthTbl evpPlain = 0 :=
  ⟨rfl, rfl, rfl⟩

/-- C4 amended: a present transport-security criterion, and a present
origin criterion with from_socket configured, always yield
indeterminate; a present authentication criterion with a configured
credential table yields indeterminate exactly for authenticated
sessions. -/
theorem C4_unsupported_capability_indeterminate :
    ∀ (m : Match) (evp : Envelope),
      (m.smtp_starttls ≠ 0 → ruleset_match_smtp_starttls m evp = -1)
      ∧ (m.«from» ≠ 0 → m.from_socket = true → ruleset_match_from m evp = -1)
      ∧ (m.smtp_auth ≠ 0 → m.smtp_auth_table.isSome = true →
          (ruleset_match_smtp_auth m evp = -1 ↔ evp.flags.authenticated = true)) := by
  intro m evp
  refine ⟨?_, ?_, ?_⟩
  · intro h
    simp [ruleset_match_smtp_starttls, h]
  · intro h hs
    simp [ruleset_match_from, h, hs]
  · intro h hs
    constructor
    · intro hr
      by_contra hb
      rw [Bool.not_eq_true] at hb
      simp only [ruleset_match_smtp_auth, h, hb, c_not] at hr
      split_ifs at hr
      all_goals simp_all
    · intro hauth
      simp [ruleset_match_smtp_auth, h, hauth, hs]

/-- C4 witness: the three unsupported-capability shapes at concrete
inputs. -/
theorem C4_witness :
    ruleset_match_smtp_starttls { mAbsent with smtp_starttls := 1 } evpPlain = -1 ∧
    ruleset_match_from { mAbsent with «from» := 1, from_socket := true } evpPlain = -1 ∧
    ruleset_match_smtp_auth mAuthTbl evpAuth = -1 := by
  refine ⟨?_, ?_, ?_⟩
  · exact (C4_unsupported_capability_indeterminate
      { mAbsent with smtp_starttls := 1 } evpPlain).1 (by norm_num)
  · exact (C4_unsupported_capability_indeterminate
      { mAbsent with «from» := 1, from_socket := true } evpPlain).2.1 (by norm_num) rfl
  · exact ((C4_unsupported_capability_indeterminate mAuthTbl evpAuth).2.2
      (by decide) rfl).mpr rfl

/-- C9 counterexample: a rule whose destination lookup errors
(indeterminate) and whose sender lookup misses (no-match) — the pair
[indeterminate, no-match] in the claimed documented order, where
destination precedes sender — is skipped by the attribute matcher
(its call returns no-rule-matched, not indeterminate), because that
matcher evaluates the sender criterion before the destination one. -/
theorem C9_counterexample :
    rule_crit_destination
      { rPlain with r_senders := some tblEmpty, r_destination := some tblErr } evpPlain
      = -1 ∧
    rule_crit_senders
      { rPlain with r_senders := some tblEmpty, r_destination := some tblErr } evpPlain
      = 0 ∧
    ruleset_match [{ rPlain with r_senders := some tblEmpty, r_destination := some tblErr }]
      evpPlain = .noRuleMatched :=
  ⟨rfl, rfl, rfl⟩

/-- C9 amended: the generic matcher evaluates criteria in the order
tag, origin, destination, identity, authentication,
transport-security, sender, recipient, and an indeterminate criterion
makes the call indeterminate even when a later criterion of the same
rule is a no-match; the attribute matcher instead evaluates tag,
authentication, origin, sender, recipient, destination, so a no-match
sender skips the rule — whatever its destination table would do — and
evaluation proceeds with the next rule. -/
theorem C9_order_and_fault_precedence :
    (∀ (m : Match) (ms : List Match) (evp : Envelope),
        ruleset_match_tag m evp = -1 →
        ruleset_match_new (m :: ms) evp = .indeterminate)
    ∧ (∀ (pre rest : List Int), (∀ x ∈ pre, x ≠ -1 ∧ x ≠ 0) →
        match_eval_list (pre ++ (-1 : Int) :: 0 :: rest) = .tempfail)
    ∧ (∀ (m : Match) (ms : List Match) (evp : Envelope),
        ruleset_match_tag m evp = 1 → ruleset_match_from m evp = -1 →
        ruleset_match_to m evp = 0 →
        ruleset_match_new (m :: ms) evp = .indeterminate)
    ∧ (∀ (r : Rule) (rs : List Rule) (evp : Envelope) (ts : Table),
        r.r_tag = "" → r.r_wantauth = false →
        rule_crit_source r evp = 1 →
        r.r_senders = some ts → ruleset_check_mailaddr ts evp.sender = 0 →
        r.r_notsenders = false →
        ruleset_match (r :: rs) evp = ruleset_match rs evp) := by
  refine ⟨?_, ?_, ?_, ?_⟩
  · intro m ms evp h1
    have he : match_eval m evp = .tempfail := by
      unfold match_eval match_crits
      rw [h1]
      simp [match_eval_list]
    rw [ruleset_match_new_cons, he]
  · intro pre rest h
    rw [match_eval_list_append_pass pre h, match_eval_list_cons]
    norm_num
  · intro m ms evp h1 h2 h3
    have he : match_eval m evp = .tempfail := by
      unfold match_eval match_crits
      rw [h1, h2]
      simp [match_eval_list]
    rw [ruleset_match_new_cons, he]
  · intro r rs evp ts htag hw hsrc hs hlookup hns
    have hauth : rule_crit_auth r evp = 1 := by simp [rule_crit_auth, hw]
    have hsen : rule_block_senders r evp = some .next := by
      simp [rule_block_senders, hs, hlookup, hns]
    have hnext : ruleset_match_one r evp = .next := by
      unfold ruleset_match_one
      rw [rule_block_tag_absent r evp htag, rule_block_auth_crit, hauth,
        rule_block_sources_crit, hsrc, hsen]
      norm_num
    exact ruleset_match_cons_next hnext rs

/-- C9 witness: a generic rule whose origin criterion errors and whose
destination criterion misses aborts the call; an attribute rule with
a no-match sender and an erroring destination table is skipped and
matching proceeds with the rest of the list. -/
theorem C9_witness :
    ruleset_match_new
      [{ mAbsent with «from» := 1, from_table := tblErr, «to» := 1, to_table := tblEmpty }]
      evpPlain = .indeterminate ∧
    ruleset_match
      [{ rPlain with r_senders := some tblEmpty, r_destination := some tblErr }, rPlain]
      evpPlain = ruleset_match [rPlain] evpPlain :=
  ⟨C9_order_and_fault_precedence.2.2.1 _ [] evpPlain rfl rfl rfl,
   C9_order_and_fault_precedence.2.2.2 _ [rPlain] evpPlain tblEmpty
     rfl rfl rfl rfl rfl rfl⟩

/-- C3 counterexample: rules carried to the generic representation by
the criterion-preserving adapter on which the two matchers disagree:
an authenticated non-internal envelope makes the origin keys differ
(the attribute matcher selects the rule, the generic one exhausts the
list), and a rule mixing an indeterminate destination with a no-match
sender is skipped by the attribute matcher but aborts the generic
matcher, because the two enumerate criteria in different orders. -/
theorem C3_counterexample :
    ruleset_match [{ rPlain with r_sources := tblLocal }] evpAuth
      = .matched { rPlain with r_sources := tblLocal } ∧
    ruleset_match_new [ruleToMatch { rPlain with r_sources := tblLocal }] evpAuth
      = .noRuleMatched ∧
    ruleset_match [{ rPlain with r_senders := some tblEmpty, r_destination := some tblErr }]
      evpPlain = .noRuleMatched ∧
    ruleset_match_new
      [ruleToMatch { rPlain with r_senders := some tblEmpty, r_destination := some tblErr }]
      evpPlain = .indeterminate :=
  ⟨rfl, rfl, rfl, rfl⟩

/-- C3 amended: the two matchers agree — same rule selected, same
no-rule or indeterminate outcome — on every rule list carried over by
the criterion-preserving adapter, provided the envelope's origin key
derivation agrees between them (an authenticated session is also
internal) and no rule mixes an indeterminate criterion outcome with a
no-match one (the two matchers enumerate criteria in different
orders). -/
theorem C3_representation_equivalence :
    ∀ (rs : List Rule) (evp : Envelope),
      (evp.flags.authenticated = true → evp.flags.internal = true) →
      (∀ r ∈ rs, r.r_tag = "" ∧ (r.r_destination = none → r.r_notdestination = false)) →
      (∀ r ∈ rs, ¬((-1 : Int) ∈ rule_crits r evp ∧ (0 : Int) ∈ rule_crits r evp)) →
      ruleset_match_new (rs.map ruleToMatch) evp = (ruleset_match rs evp).map ruleToMatch :=
  ruleset_match_new_map_toMatch

/-- C3 witness: the matchers agree on a concrete one-rule list. -/
theorem C3_witness :
    ruleset_match_new ([rPlain].map ruleToMatch) evpPlain
      = (ruleset_match [rPlain] evpPlain).map ruleToMatch :=
  C3_representation_equivalence [rPlain] evpPlain (by decide)
    (by intro r hr; rw [List.mem_singleton] at hr; subst hr; exact ⟨rfl, fun _ => rfl⟩)
    (by intro r hr; rw [List.mem_singleton] at hr; subst hr; decide)
